import Mathlib

/-!
# Verification of the crawler/extractor/store core (anondd)

A shallow embedding, in Lean 4, of the Go sources of the `anondd` repository:
the entity model (`utils/models/agent.go`, latest variant), the file-backed
store (`utils/storage/agent_store.go`) and the most complete variant of the
scraper (`webscraper`, the variant with the fetch-throttle check and the
multi-selector extraction).  Pure Go functions become Lean functions; the
file system, the throttle cache and the index file become an explicit
`AgentStore` state threaded through the operations; `time.Now()` becomes an
explicit `now : Time` argument; the browser fetch becomes an oracle
`Nat → Except String Document` since the claims never depend on how a page
is rendered, only on what the fetch step returns.
-/

deriving instance DecidableEq for Except

namespace Anondd

/-! ## Go string helpers

`strings.TrimSpace`, `strings.ToLower` and `strings.Contains`, as used by
`UpdateStatus`, `extractTextBySelector` and the metric extraction.  Go trims
the Unicode white space of `unicode.IsSpace`; the inputs of this repository
are ASCII, where the set below agrees with Go's. -/

/-- The characters `unicode.IsSpace` accepts in the Latin-1 range; this is
what `strings.TrimSpace` strips from both ends. -/
def goIsSpace (c : Char) : Bool :=
  c = ' ' || c = '\t' || c = '\n' || c = '\x0b' || c = '\x0c' || c = '\r' ||
  c = '\u0085' || c = ' '

/-- `strings.TrimSpace`: drop white space from both ends. -/
def trimSpace (s : String) : String :=
  String.mk (((s.data.dropWhile goIsSpace).reverse.dropWhile goIsSpace).reverse)

/-- `strings.ToLower`, on the ASCII subset this repository feeds it. -/
def toLowerStr (s : String) : String :=
  String.mk (s.data.map Char.toLower)

/-- Does `sub` occur as a contiguous run of `hay`?  This is Go's
`strings.Contains hay sub` (true for the empty `sub`). -/
def containsChars (hay sub : List Char) : Bool :=
  match hay with
  | [] => sub.isEmpty
  | _ :: t => sub.isPrefixOf hay || containsChars t sub

/-- `strings.Contains hay sub` on strings. -/
def containsStr (hay sub : String) : Bool :=
  containsChars hay.data sub.data

/-! ## SHA-256

`GenerateID` hashes `fmt.Sprintf("%s-%s", Name, Price)` with
`crypto/sha256` and hex-encodes the first 8 digest bytes.  The hash is
embedded in full (FIPS 180-4), over `Nat` with explicit reduction mod
`2^32`; bytes are `Nat` values below 256. -/

/-- Reduce to a 32-bit word. -/
def w32 (n : Nat) : Nat := n % 4294967296

/-- Rotate a 32-bit word right by `n`. -/
def rotr32 (x n : Nat) : Nat := w32 ((x >>> n) ||| (x <<< (32 - n)))

/-- Bitwise complement of a 32-bit word. -/
def not32 (x : Nat) : Nat := 4294967295 ^^^ x

def shaCh (x y z : Nat) : Nat := (x &&& y) ^^^ (not32 x &&& z)

def shaMaj (x y z : Nat) : Nat := (x &&& y) ^^^ (x &&& z) ^^^ (y &&& z)

def capSigma0 (x : Nat) : Nat := rotr32 x 2 ^^^ rotr32 x 13 ^^^ rotr32 x 22

def capSigma1 (x : Nat) : Nat := rotr32 x 6 ^^^ rotr32 x 11 ^^^ rotr32 x 25

def smallSigma0 (x : Nat) : Nat := rotr32 x 7 ^^^ rotr32 x 18 ^^^ (x >>> 3)

def smallSigma1 (x : Nat) : Nat := rotr32 x 17 ^^^ rotr32 x 19 ^^^ (x >>> 10)

/-- The 64 SHA-256 round constants (FIPS 180-4 §4.2.2, written in
decimal). -/
def kConsts : Array Nat := #[
  1116352408, 1899447441, 3049323471, 3921009573, 961987163,
  1508970993, 2453635748, 2870763221, 3624381080, 310598401,
  607225278, 1426881987, 1925078388, 2162078206, 2614888103,
  3248222580, 3835390401, 4022224774, 264347078, 604807628,
  770255983, 1249150122, 1555081692, 1996064986, 2554220882,
  2821834349, 2952996808, 3210313671, 3336571891, 3584528711,
  113926993, 338241895, 666307205, 773529912, 1294757372,
  1396182291, 1695183700, 1986661051, 2177026350, 2456956037,
  2730485921, 2820302411, 3259730800, 3345764771, 3516065817,
  3600352804, 4094571909, 275423344, 430227734, 506948616,
  659060556, 883997877, 958139571, 1322822218, 1537002063,
  1747873779, 1955562222, 2024104815, 2227730452, 2361852424,
  2428436474, 2756734187, 3204031479, 3329325298]

/-- The SHA-256 initial hash state (FIPS 180-4 §5.3.3, in decimal). -/
def shaInit : Array Nat := #[
  1779033703, 3144134277, 1013904242, 2773480762, 1359893119,
  2600822924, 528734635, 1541459225]

/-- Extend the 16 message words of one block to the 64-word schedule. -/
def scheduleW (m : Array Nat) : Array Nat :=
  (List.range 48).foldl (fun w _ =>
    let i := w.size
    w.push (w32 (smallSigma1 (w.get! (i - 2)) + w.get! (i - 7) +
                 smallSigma0 (w.get! (i - 15)) + w.get! (i - 16)))) m

/-- One round of the SHA-256 compression on the 8-word working state. -/
def shaRound (w : Array Nat) (st : Array Nat) (i : Nat) : Array Nat :=
  let a := st.get! 0
  let b := st.get! 1
  let c := st.get! 2
  let d := st.get! 3
  let e := st.get! 4
  let f := st.get! 5
  let g := st.get! 6
  let h := st.get! 7
  let t1 := w32 (h + capSigma1 e + shaCh e f g + kConsts.get! i + w.get! i)
  let t2 := w32 (capSigma0 a + shaMaj a b c)
  #[w32 (t1 + t2), a, b, c, w32 (d + t1), e, f, g]

/-- Compress one 16-word block into the hash state. -/
def shaCompress (st : Array Nat) (m : Array Nat) : Array Nat :=
  let w := scheduleW m
  let v := (List.range 64).foldl (shaRound w) st
  (Array.range 8).map (fun i => w32 (st.get! i + v.get! i))

/-- UTF-8 bytes of one character, as Go's `[]byte(string)` produces them. -/
def utf8Bytes (c : Char) : List Nat :=
  let n := c.toNat
  if n < 0x80 then [n]
  else if n < 0x800 then [0xC0 ||| (n >>> 6), 0x80 ||| (n &&& 0x3F)]
  else if n < 0x10000 then
    [0xE0 ||| (n >>> 12), 0x80 ||| ((n >>> 6) &&& 0x3F), 0x80 ||| (n &&& 0x3F)]
  else
    [0xF0 ||| (n >>> 18), 0x80 ||| ((n >>> 12) &&& 0x3F),
     0x80 ||| ((n >>> 6) &&& 0x3F), 0x80 ||| (n &&& 0x3F)]

/-- The UTF-8 bytes of a string. -/
def strBytes (s : String) : List Nat :=
  (s.data.map utf8Bytes).flatten

/-- A `Nat` as 8 big-endian bytes (the SHA-256 length suffix). -/
def be64 (n : Nat) : List Nat :=
  (List.range 8).map (fun i => (n >>> (8 * (7 - i))) &&& 255)

/-- FIPS 180-4 padding: `0x80`, zeros to 56 mod 64, then the bit length. -/
def shaPad (msg : List Nat) : List Nat :=
  let z := (119 - msg.length % 64) % 64
  msg ++ 0x80 :: List.replicate z 0 ++ be64 (8 * msg.length)

/-- Group bytes into blocks of 64, with the list length as structural fuel
(each step drops at least one byte, so the fuel never runs out first). -/
def toBlocksGo : Nat → List Nat → List (List Nat)
  | _, [] => []
  | 0, _ :: _ => []
  | fuel + 1, a :: rest =>
    (a :: rest).take 64 :: toBlocksGo fuel ((a :: rest).drop 64)

/-- Group bytes into blocks of 64. -/
def toBlocks (l : List Nat) : List (List Nat) := toBlocksGo l.length l

/-- Big-endian 32-bit words from bytes. -/
def bytesToWords : List Nat → List Nat
  | b0 :: b1 :: b2 :: b3 :: rest =>
    (((b0 * 256 + b1) * 256 + b2) * 256 + b3) :: bytesToWords rest
  | _ => []

/-- A 32-bit word as 4 big-endian bytes. -/
def wordBytes (w : Nat) : List Nat :=
  [(w >>> 24) &&& 255, (w >>> 16) &&& 255, (w >>> 8) &&& 255, w &&& 255]

/-- The 32 digest bytes of SHA-256 over a byte message. -/
def sha256Bytes (msg : List Nat) : List Nat :=
  let blocks := toBlocks (shaPad msg)
  let final := blocks.foldl (fun st b => shaCompress st (bytesToWords b).toArray) shaInit
  (final.toList.map wordBytes).flatten

/-- A hex digit, lower case, as `encoding/hex` emits it. -/
def hexDigit (n : Nat) : Char :=
  if n < 10 then Char.ofNat (48 + n) else Char.ofNat (87 + n)

/-- A byte as two lower-case hex characters. -/
def byteHex (b : Nat) : List Char :=
  [hexDigit ((b >>> 4) &&& 15), hexDigit (b &&& 15)]

/-- `hex.EncodeToString(hash[:8])` of `sha256.Sum256` of a string: the first
8 digest bytes, hex-encoded — the body of `GenerateID`. -/
def sha256hex8 (s : String) : String :=
  String.mk ((((sha256Bytes (strBytes s)).take 8).map byteHex).flatten)

/-- The ID string `GenerateID` derives: the truncated hex digest of
`fmt.Sprintf("%s-%s", name, price)`. -/
def generateIDString (name price : String) : String :=
  sha256hex8 (name ++ "-" ++ price)

/-! ## The data model (`utils/models/agent.go`, latest variant)

`time.Time` values become abstract instants `Time := Int`; `time.Since t`
is `now - t` and durations are counted in nanoseconds, as in Go. -/

/-- An instant, standing in for `time.Time`. -/
abbrev Time := Int

/-- Nanoseconds per hour: `time.Hour`. -/
def nsPerHour : Int := 3600000000000

/-- `models.InfluenceMetrics`. -/
structure InfluenceMetrics where
  mindshare : String := ""
  impressions : String := ""
  engagement : String := ""
  followers : String := ""
  smartFollowers : String := ""
  topTweets : String := ""
deriving DecidableEq

/-- `models.TokenData`. -/
structure TokenData where
  mcFdv : String := ""
  change24h : String := ""
  tvl : String := ""
  holders : String := ""
  volume24h : String := ""
  inferences : String := ""
deriving DecidableEq

/-- `models.Agent`, with every field of the latest Go struct.  Go zero
values (empty string, zero time, 0, false) are the field defaults. -/
structure Agent where
  id : String := ""
  name : String := ""
  description : String := ""
  stats : String := ""
  price : String := ""
  scrapedAt : Time := 0
  status : String := ""
  lastChecked : Time := 0
  updateCount : Nat := 0
  influenceMetrics : InfluenceMetrics := {}
  tokenData : TokenData := {}
  lastError : String := ""
  parseSuccess : Bool := false
  retryCount : Nat := 0
deriving DecidableEq

/-- `models.AgentSummary`. -/
structure AgentSummary where
  id : String
  name : String
  price : String
deriving DecidableEq

/-- `models.AgentIndex`. -/
structure AgentIndex where
  lastUpdated : Time
  agents : List AgentSummary
deriving DecidableEq

def statusDefault : String := "default"

def statusActive : String := "active"

def statusDead : String := "dead"

def statusLatent : String := "latent"

/-- `(*Agent).GenerateID`: set `ID` from the hash of name and price. -/
def generateID (a : Agent) : Agent :=
  { a with id := generateIDString a.name a.price }

/-- `(*Agent).ToSummary` (also inlined in `UpdateIndex`): the narrow
`(ID, Name, Price)` projection. -/
def toSummary (a : Agent) : AgentSummary :=
  { id := a.id, name := a.name, price := a.price }

/-- `(*Agent).UpdateStatus`: the Go `switch` deriving `Status` from the
content, first matching case winning. -/
def updateStatus (a : Agent) : Agent :=
  if a.price = "" && a.description = "" then { a with status := statusDead }
  else if a.updateCount == 0 then { a with status := statusDefault }
  else if containsStr (toLowerStr a.description) "inactive" ||
          containsStr (toLowerStr a.description) "discontinued" then
    { a with status := statusLatent }
  else { a with status := statusActive }

/-! ## The store (`utils/storage/agent_store.go`)

The pieces of mutable state an `AgentStore` owns — the per-agent JSON files
under `BaseDir/agents/`, the index file `agent_index.json` and the
in-memory fetch cache — become one explicit state record.  A directory of
JSON files becomes an association list from ID to the decoded record
(`os.WriteFile` then `json.Unmarshal` round-trips the value).  The index
file keeps its raw-bytes nature where it matters: `os.WriteFile` opens with
`O_TRUNC` and then writes, so a failed write is represented explicitly
(`IndexFile.corrupt idx k` is the file holding only the first `k` bytes of
the encoding of `idx` — the old content is already gone). -/

/-- The on-disk state of `agent_index.json`. -/
inductive IndexFile
  /-- No index file exists yet. -/
  | absent
  /-- The file holds the complete encoding of `idx`. -/
  | intact (idx : AgentIndex)
  /-- A write failed after `O_TRUNC`: the file holds only the first `k`
  bytes of the encoding of `idx`. -/
  | corrupt (idx : AgentIndex) (k : Nat)
deriving DecidableEq

/-- How one call of `os.WriteFile` turns out. -/
inductive WriteOutcome
  /-- Open and write both succeed. -/
  | success
  /-- The open itself fails: the target file is untouched. -/
  | openFail
  /-- The open (with `O_TRUNC`) succeeds but the write fails after `k`
  bytes: the old content is lost. -/
  | writeFail (k : Nat)
deriving DecidableEq

/-- The mutable state of `storage.AgentStore`: the agent files, the index
file, and the in-memory fetch-throttle cache. -/
structure AgentStore where
  agentFiles : List (String × Agent) := []
  indexFile : IndexFile := .absent
  fetchCache : List (String × Time) := []

/-- Association-list lookup (first binding wins, i.e. map semantics with
updates consed on the front). -/
def lookupAssoc {α : Type} (l : List (String × α)) (k : String) : Option α :=
  match l with
  | [] => none
  | (k', v) :: t => if k' = k then some v else lookupAssoc t k

/-- `(*AgentStore).ShouldFetch`: fetch unless the cache has a record from
within the last 24 hours. -/
def shouldFetch (s : AgentStore) (agentID : String) (now : Time) : Bool :=
  match lookupAssoc s.fetchCache agentID with
  | none => true
  | some lastFetch => now - lastFetch > 24 * nsPerHour

/-- `(*AgentStore).MarkFetched`: record `now` for this scan ID. -/
def markFetched (s : AgentStore) (agentID : String) (now : Time) : AgentStore :=
  { s with fetchCache := (agentID, now) :: s.fetchCache }

/-- Write (create or overwrite) one agent file. -/
def writeAgentFile (s : AgentStore) (a : Agent) : AgentStore :=
  { s with agentFiles := (a.id, a) :: s.agentFiles }

/-- `(*AgentStore).GetAgent`: read and decode the agent file, or fail. -/
def getAgent (s : AgentStore) (id : String) : Except String Agent :=
  match lookupAssoc s.agentFiles id with
  | some a => .ok a
  | none => .error "failed to read agent file"

/-- `(*AgentStore).SaveAgent`.  The Go function takes `*models.Agent` and
mutates it in place before deciding whether to write, so the embedding
returns the mutated argument next to the new store state.  Faithfully to
the source, `LastChecked`, `UpdateCount` and `Status` are updated *before*
the existing record is read and compared with `reflect.DeepEqual` (which
compares every field, timestamps included).  File I/O is assumed to
succeed; `MkdirAll`/`WriteFile` failure is not where any claim lives.

`savePrepared` is the mutation prologue of `SaveAgent` (lines 56–62 of the
Go file): stamp `LastChecked`, increment `UpdateCount`, recompute `Status`,
fill an empty `ID`. -/
def savePrepared (a : Agent) (now : Time) : Agent :=
  let a1 := { a with lastChecked := now, updateCount := a.updateCount + 1 }
  let a2 := updateStatus a1
  if a2.id = "" then generateID a2 else a2

def saveAgent (s : AgentStore) (a : Agent) (now : Time) : AgentStore × Agent :=
  let a3 := savePrepared a now
  match lookupAssoc s.agentFiles a3.id with
  | some existing =>
    if existing = a3 then (s, a3)
    else
      let a4 := { a3 with updateCount := existing.updateCount + 1 }
      (writeAgentFile s a4, a4)
  | none => (writeAgentFile s a3, a3)

/-- `(*AgentStore).UpdateIndex`: build the fresh index from the given
agents, in their order, and `os.WriteFile` it over `agent_index.json`.
`json.MarshalIndent` cannot fail on this type, so the error cases are the
two failure modes of the file write. -/
def updateIndex (s : AgentStore) (agents : List Agent) (now : Time)
    (w : WriteOutcome) : AgentStore × Option String :=
  let index : AgentIndex := { lastUpdated := now, agents := agents.map toSummary }
  match w with
  | .success => ({ s with indexFile := .intact index }, none)
  | .openFail => (s, some "failed to write index file")
  | .writeFail k => ({ s with indexFile := .corrupt index k }, some "failed to write index file")

/-- `(*AgentStore).GetIndex`: read and decode `agent_index.json`; a missing
file or a truncated encoding is a read/decode error. -/
def getIndex (s : AgentStore) : Except String AgentIndex :=
  match s.indexFile with
  | .intact idx => .ok idx
  | .absent => .error "failed to read index file"
  | .corrupt _ _ => .error "failed to unmarshal index"

/-! ## The scraper (`webscraper`, latest variant)

A rendered `goquery.Document` is embedded as what the extraction code asks
of it: the raw text of each match of a CSS selector, in document order,
and the label/value text pairs of the blocks the two metric sections
iterate.  `FetchHTML` drives a browser and is modelled as an oracle
`fetchEnv : Nat → Except String Document` passed to the sweep: the claims
about the sweep quantify over what each fetch returns, never over how a
page renders. -/

/-- A rendered page, seen through the goquery calls the extractor makes. -/
structure Document where
  /-- `doc.Find(selector).Each`: the raw (untrimmed) text of each match of
  a selector, in document order. -/
  texts : String → List String
  /-- The `.rounded-2xl` blocks under the "Influence Metrics" section:
  raw label text (`.text-neutral50`) and value text (`.text-neutral10`). -/
  metricBlocks : List (String × String) := []
  /-- The `.flex-col` columns of the `.grid-cols-4` grids under the
  "Token Data" section: raw label and value text. -/
  tokenCols : List (String × String) := []

/-- The name selector candidates of `parseAgentPage`, in priority order. -/
def nameSelectors : List String :=
  [".text-neutral10.text-2xl", "h1", ".agent-name", "div.text-2xl"]

/-- The price selector candidates. -/
def priceSelectors : List String :=
  [".text-neutral30", "div:contains('$')", ".price"]

/-- The description selector candidates. -/
def descriptionSelectors : List String :=
  ["div:contains('Biography') + div", ".text-base.text-neutral30.break-all", ".agent-description"]

/-- The first non-empty trimmed text of a list of raw texts. -/
def firstNonEmpty : List String → String
  | [] => ""
  | t :: ts => let tr := trimSpace t; if tr ≠ "" then tr else firstNonEmpty ts

/-- One field of `extractTextBySelector`: scan the selectors in order and
the matches of each in document order; the first non-empty trimmed text
wins (an unset Go map entry reads back as `""`). -/
def extractField (doc : Document) (sels : List String) : String :=
  firstNonEmpty ((sels.map doc.texts).flatten)

/-- `extractInfluenceMetrics`: fold the labelled blocks, mapping each
(case-insensitive) label to its fixed field; unmapped labels are ignored,
later blocks overwrite earlier ones. -/
def extractInfluenceMetrics (doc : Document) : InfluenceMetrics :=
  doc.metricBlocks.foldl (fun m lv =>
    let label := toLowerStr (trimSpace lv.1)
    let value := trimSpace lv.2
    if label = "mindshare" then { m with mindshare := value }
    else if label = "impressions" then { m with impressions := value }
    else if label = "engagement" then { m with engagement := value }
    else if label = "followers" then { m with followers := value }
    else if label = "smart followers" then { m with smartFollowers := value }
    else if label = "top tweets" then { m with topTweets := value }
    else m) {}

/-- `extractTokenData`: same shape over the token-data columns. -/
def extractTokenData (doc : Document) : TokenData :=
  doc.tokenCols.foldl (fun t lv =>
    let label := toLowerStr (trimSpace lv.1)
    let value := trimSpace lv.2
    if label = "mc (fdv)" then { t with mcFdv := value }
    else if label = "24h chg" then { t with change24h := value }
    else if label = "tvl" then { t with tvl := value }
    else if label = "holders" then { t with holders := value }
    else if label = "24h vol" then { t with volume24h := value }
    else if label = "inferences" then { t with inferences := value }
    else t) {}

/-- The candidate entity `parseAgentPage` assembles before its name check:
the extracted fields plus `ParseSuccess = true` and the scrape time; every
other field keeps its Go zero value. -/
def parsedAgent (doc : Document) (now : Time) : Agent :=
  { scrapedAt := now
    parseSuccess := true
    name := extractField doc nameSelectors
    price := extractField doc priceSelectors
    description := extractField doc descriptionSelectors
    influenceMetrics := extractInfluenceMetrics doc
    tokenData := extractTokenData doc }

/-- `parseAgentPage`: extract the fields, fail when no selector yielded a
name, otherwise derive the content ID and status.  The debug writes of raw
HTML and JSON along the way touch only the diagnostic subtree, never the
store, and are omitted. -/
def parseAgentPage (doc : Document) (id : Nat) (now : Time) : Except String Agent :=
  if (parsedAgent doc now).name = "" then
    .error ("no agent name found for ID " ++ toString id)
  else
    .ok (updateStatus (generateID (parsedAgent doc now)))

/-- `startAgentID` of the latest scraper variant. -/
def startAgentID : Nat := 1

/-- `maxAgentID` of the latest scraper variant. -/
def maxAgentID : Nat := 500

/-- The closed scan range `[start, max]` of the sweep loop. -/
def idRange (start max : Nat) : List Nat :=
  List.range' start (max + 1 - start)

/-- What one sweep of `ScrapeAgents` produces: the final store state, the
success and failure counters of the sweep summary, and the accumulated
entity list. -/
structure SweepResult where
  store : AgentStore
  successCount : Nat
  errorCount : Nat
  agents : List Agent

/-- The body of the `ScrapeAgents` loop over the remaining scan IDs:
skip a throttled ID; count a fetch or parse failure and continue; on
success mark the ID fetched and append the entity.  No call of `SaveAgent`
appears anywhere in the loop — exactly as in the source. -/
def sweepLoop (fetchEnv : Nat → Except String Document) (now : Time) :
    List Nat → AgentStore → Nat → Nat → List Agent →
    AgentStore × Nat × Nat × List Agent
  | [], s, sc, ec, acc => (s, sc, ec, acc)
  | id :: rest, s, sc, ec, acc =>
    if !shouldFetch s (toString id) now then
      sweepLoop fetchEnv now rest s sc ec acc
    else
      match fetchEnv id with
      | .error _ => sweepLoop fetchEnv now rest s sc (ec + 1) acc
      | .ok doc =>
        match parseAgentPage doc id now with
        | .error _ => sweepLoop fetchEnv now rest s sc (ec + 1) acc
        | .ok agent =>
          sweepLoop fetchEnv now rest (markFetched s (toString id) now)
            (sc + 1) ec (acc ++ [agent])

/-- `ScrapeAgents`: run the loop over the scan range, then, when the
accumulated list is non-empty, rebuild the index once from it (a failed
rebuild is only logged).  `w` is the outcome of the index file write. -/
def scrapeAgents (fetchEnv : Nat → Except String Document) (s : AgentStore)
    (now : Time) (w : WriteOutcome) (start max : Nat) : SweepResult :=
  let r := sweepLoop fetchEnv now (idRange start max) s 0 0 []
  let finalStore := if r.2.2.2.isEmpty then r.1 else (updateIndex r.1 r.2.2.2 now w).1
  { store := finalStore
    successCount := r.2.1
    errorCount := r.2.2.1
    agents := r.2.2.2 }

/-! ## Spec-side definitions and concrete instances

`specStatus` restates the specification's status-derivation rule as data —
an ordered list of guards with first match winning — to be compared with
the `updateStatus` translated from the Go `switch`.  The remaining
definitions are the concrete stores, agents and documents the witnesses
and counterexamples evaluate. -/

/-- First-match-wins over an ordered rule list, with a default. -/
def firstMatch : List (Bool × String) → String → String
  | [], dflt => dflt
  | (c, r) :: rest, dflt => if c then r else firstMatch rest dflt

/-- The specification's status rules, in their fixed order. -/
def statusRules (a : Agent) : List (Bool × String) :=
  [ (a.price = "" && a.description = "", statusDead),
    (a.updateCount == 0, statusDefault),
    (containsStr (toLowerStr a.description) "inactive" ||
       containsStr (toLowerStr a.description) "discontinued", statusLatent) ]

/-- The status the specification derives: first matching rule, else
`active`. -/
def specStatus (a : Agent) : String :=
  firstMatch (statusRules a) statusActive

/-- A page whose only name selector match is `Alpha` (an `h1` heading). -/
def docAlpha : Document :=
  { texts := fun sel => if sel = "h1" then ["Alpha"] else [] }

/-- A page whose only name selector match is `Beta`. -/
def docBeta : Document :=
  { texts := fun sel => if sel = "h1" then ["Beta"] else [] }

/-- A page where every name selector yields only white space, while a
price is present. -/
def docNoName : Document :=
  { texts := fun sel =>
      if sel = "h1" then ["  ", "\n"]
      else if sel = ".text-neutral30" then ["$12"]
      else if sel = "div:contains('Biography') + div" then ["a bio"]
      else [] }

/-- A fetch oracle that renders `docAlpha` for every scan ID. -/
def fetchAllAlpha : Nat → Except String Document := fun _ => .ok docAlpha

/-- A fetch oracle where scan ID 2 times out and IDs 1 and 3 render. -/
def fetchTwoOfThree : Nat → Except String Document := fun id =>
  if id = 2 then .error "timeout while loading page"
  else if id = 1 then .ok docAlpha
  else .ok docBeta

/-- A concrete agent with a non-empty ID, as the sweep would produce it
after a first successful extraction. -/
def agentAlpha : Agent :=
  { id := "agent1", name := "Alpha", price := "1", description := "great" }

/-- An on-disk record for the same ID with different content and a larger
update count. -/
def agentAlphaV5 : Agent :=
  { id := "agent1", name := "Alpha", price := "1", description := "old words",
    updateCount := 5, lastChecked := 3, status := "active" }

/-- The same incoming content as `agentAlpha` but differing from
`agentAlphaV5` in the description. -/
def agentAlphaNew : Agent :=
  { id := "agent1", name := "Alpha", price := "1", description := "new words" }

/-- A store holding only the `agentAlphaV5` record. -/
def storeWithV5 : AgentStore :=
  { agentFiles := [("agent1", agentAlphaV5)] }

/-- A previously persisted index. -/
def oldIndex : AgentIndex :=
  { lastUpdated := 1, agents := [{ id := "x", name := "X", price := "9" }] }

/-- A store whose index file holds `oldIndex` intact. -/
def storeWithOldIndex : AgentStore :=
  { indexFile := .intact oldIndex }

/-- Two agents with equal name and price but different volatile fields. -/
def agentVolatileA : Agent :=
  { name := "Alpha", price := "$2", description := "x", stats := "s",
    scrapedAt := 11, updateCount := 3 }

/-- The counterpart of `agentVolatileA`. -/
def agentVolatileB : Agent :=
  { name := "Alpha", price := "$2", description := "y", lastChecked := 7,
    retryCount := 2, parseSuccess := true }

/-- Name `a-b`, price `c`: hashes the string `a-b-c`. -/
def agentDashLeft : Agent := { name := "a-b", price := "c" }

/-- Name `a`, price `b-c`: also hashes the string `a-b-c`. -/
def agentDashRight : Agent := { name := "a", price := "b-c" }

/-! ## Helper lemmas -/

/-- The Go `switch` of `UpdateStatus` computes exactly the spec's
first-match rule list and touches no field but `Status`. -/
theorem updateStatus_spec (a : Agent) :
    updateStatus a = { a with status := specStatus a } := by
  unfold updateStatus specStatus statusRules
  simp only [firstMatch]
  split_ifs <;> rfl

/-- `specStatus` reads only price, description and update count. -/
theorem specStatus_fields (a b : Agent) (hp : a.price = b.price)
    (hd : a.description = b.description) (hu : a.updateCount = b.updateCount) :
    specStatus a = specStatus b := by
  unfold specStatus statusRules
  rw [hp, hd, hu]

/-- When every raw text trims to empty, `firstNonEmpty` comes back empty. -/
theorem firstNonEmpty_empty (l : List String) (h : ∀ t ∈ l, trimSpace t = "") :
    firstNonEmpty l = "" := by
  induction l with
  | nil => rfl
  | cons t ts ih =>
    have ht := h t (List.mem_cons_self t ts)
    simp only [firstNonEmpty, ht]
    exact ih (fun u hu => h u (List.mem_cons_of_mem t hu))

/-- When some raw text trims to something non-empty, `firstNonEmpty` comes
back non-empty. -/
theorem firstNonEmpty_ne (l : List String) (h : ∃ t ∈ l, trimSpace t ≠ "") :
    firstNonEmpty l ≠ "" := by
  induction l with
  | nil => simp at h
  | cons t ts ih =>
    by_cases hh : trimSpace t = ""
    · simp only [firstNonEmpty, hh]
      simp only [ne_eq, not_true_eq_false, if_false]
      rcases h with ⟨u, hu, hne⟩
      rcases List.mem_cons.mp hu with h1 | h2
      · exact absurd (h1 ▸ hh) hne
      · exact ih ⟨u, h2, hne⟩
    · simp only [firstNonEmpty, if_pos (by simpa using hh)]
      exact hh

/-- The save prologue stamps the call time into `LastChecked`. -/
theorem savePrepared_lastChecked (a : Agent) (now : Time) :
    (savePrepared a now).lastChecked = now := by
  unfold savePrepared
  simp only [updateStatus_spec]
  by_cases hid : a.id = "" <;>
    simp [hid, generateID]

/-- The save prologue fills an empty `ID` from `(Name, Price)` and keeps a
non-empty one. -/
theorem savePrepared_id (a : Agent) (now : Time) :
    (savePrepared a now).id =
      (if a.id = "" then generateIDString a.name a.price else a.id) := by
  unfold savePrepared
  simp only [updateStatus_spec]
  by_cases hid : a.id = "" <;>
    simp [hid, generateID]

/-- The save prologue derives `Status` from the content with the already
incremented count. -/
theorem savePrepared_status (a : Agent) (now : Time) :
    (savePrepared a now).status = specStatus { a with updateCount := a.updateCount + 1 } := by
  unfold savePrepared
  simp only [updateStatus_spec]
  by_cases hid : a.id = "" <;>
    simp only [hid, generateID, eq_self_iff_true, if_true, if_false] <;>
    exact specStatus_fields _ _ rfl rfl rfl

/-- The save prologue increments `UpdateCount` by one. -/
theorem savePrepared_updateCount (a : Agent) (now : Time) :
    (savePrepared a now).updateCount = a.updateCount + 1 := by
  unfold savePrepared
  simp only [updateStatus_spec]
  by_cases hid : a.id = "" <;>
    simp [hid, generateID]

/-- Extraction succeeds as soon as the name field comes back non-empty. -/
theorem parseAgentPage_ok (doc : Document) (id : Nat) (now : Time)
    (h : extractField doc nameSelectors ≠ "") :
    parseAgentPage doc id now = .ok (updateStatus (generateID (parsedAgent doc now))) := by
  unfold parseAgentPage
  exact if_neg h

/-- Extraction fails exactly at the name check when the name field comes
back empty. -/
theorem parseAgentPage_err (doc : Document) (id : Nat) (now : Time)
    (h : extractField doc nameSelectors = "") :
    parseAgentPage doc id now = .error ("no agent name found for ID " ++ toString id) := by
  unfold parseAgentPage
  exact if_pos h

/-- A scan ID with no throttle record is fetched. -/
theorem shouldFetch_of_lookup_none (s : AgentStore) (k : String) (now : Time)
    (h : lookupAssoc s.fetchCache k = none) : shouldFetch s k now = true := by
  simp [shouldFetch, h]

/-- One sweep step: a fetch failure counts one error and the loop goes on
with the next ID. -/
theorem sweepLoop_fetchErr (fetchEnv : Nat → Except String Document) (now : Time)
    (id : Nat) (rest : List Nat) (s : AgentStore) (sc ec : Nat) (acc : List Agent)
    (msg : String) (hsf : shouldFetch s (toString id) now = true)
    (hf : fetchEnv id = .error msg) :
    sweepLoop fetchEnv now (id :: rest) s sc ec acc =
      sweepLoop fetchEnv now rest s sc (ec + 1) acc := by
  simp only [sweepLoop, hsf, Bool.not_true, Bool.false_eq_true, if_false, hf]

/-- One sweep step: on fetch and parse success the ID is marked fetched,
the success counter moves and the entity is appended. -/
theorem sweepLoop_stepOk (fetchEnv : Nat → Except String Document) (now : Time)
    (id : Nat) (rest : List Nat) (s : AgentStore) (sc ec : Nat) (acc : List Agent)
    (doc : Document) (agent : Agent) (hsf : shouldFetch s (toString id) now = true)
    (hf : fetchEnv id = .ok doc) (hp : parseAgentPage doc id now = .ok agent) :
    sweepLoop fetchEnv now (id :: rest) s sc ec acc =
      sweepLoop fetchEnv now rest (markFetched s (toString id) now) (sc + 1) ec
        (acc ++ [agent]) := by
  simp only [sweepLoop, hsf, Bool.not_true, Bool.false_eq_true, if_false, hf, hp]

/-! ## The claims -/

/-- C2 — the claim fails on the code and the code contradicts its own
"Only update if there are changes" comment: `SaveAgent` mutates
`LastChecked` and `UpdateCount` *before* the `reflect.DeepEqual`
comparison, so saving the very same caller-side content twice never hits
the no-op branch.  Concretely, saving `agentAlpha` at time 1 writes a
record with `UpdateCount = 1`, and saving the identical content again at
time 2 writes a record with `UpdateCount = 2` instead of no-opping. -/
theorem saveAgent_identical_resave_increments :
    (saveAgent {} agentAlpha 1).2.updateCount = 1 ∧
    (saveAgent (saveAgent {} agentAlpha 1).1 agentAlpha 2).2.updateCount = 2 ∧
    lookupAssoc (saveAgent (saveAgent {} agentAlpha 1).1 agentAlpha 2).1.agentFiles "agent1" =
      some (saveAgent (saveAgent {} agentAlpha 1).1 agentAlpha 2).2 := by
  decide

/-- C3 counterexample — the claim "the previously persisted index file
remains intact and readable" fails: `UpdateIndex` writes with
`os.WriteFile`, which truncates before writing, so a write failure after
open returns an error while the old index is already gone and the file no
longer decodes. -/
theorem updateIndex_writeFail_destroys_old :
    (updateIndex storeWithOldIndex [agentAlpha] 2 (.writeFail 0)).2 =
      some "failed to write index file" ∧
    (updateIndex storeWithOldIndex [agentAlpha] 2 (.writeFail 0)).1.indexFile ≠
      .intact oldIndex ∧
    getIndex (updateIndex storeWithOldIndex [agentAlpha] 2 (.writeFail 0)).1 =
      .error "failed to unmarshal index" := by
  decide

/-- C3 (amended) — if `rebuildIndex` fails because the open itself fails,
it returns a `PersistenceError` and the store (old index included) is
untouched; if the write fails after the open, it returns a
`PersistenceError` but the index file then holds only a prefix of the new
index content — the old index is already truncated away. -/
theorem updateIndex_failure_behavior (s : AgentStore) (agents : List Agent)
    (now : Time) (k : Nat) :
    ((updateIndex s agents now .openFail).1 = s ∧
      (updateIndex s agents now .openFail).2 = some "failed to write index file") ∧
    ((updateIndex s agents now (.writeFail k)).2 = some "failed to write index file" ∧
      (updateIndex s agents now (.writeFail k)).1.indexFile =
        .corrupt { lastUpdated := now, agents := agents.map toSummary } k) :=
  ⟨⟨rfl, rfl⟩, rfl, rfl⟩

/-- C4 — the generated entity ID is a function of `(Name, Price)` alone:
two agents agreeing on name and price get the same ID whatever their other
fields hold. -/
theorem generateID_deterministic (a b : Agent)
    (hn : a.name = b.name) (hp : a.price = b.price) :
    (generateID a).id = (generateID b).id := by
  simp [generateID, generateIDString, hn, hp]

/-- C4 witness — two concrete agents differing in description, stats,
timestamps, counters and parse flags, agreeing on name and price, get
equal IDs. -/
theorem generateID_deterministic_witness :
    agentVolatileA.name = agentVolatileB.name ∧
    agentVolatileA.price = agentVolatileB.price ∧
    agentVolatileA.description ≠ agentVolatileB.description ∧
    (generateID agentVolatileA).id = (generateID agentVolatileB).id :=
  ⟨rfl, rfl, by decide, generateID_deterministic agentVolatileA agentVolatileB rfl rfl⟩

/-- C5 — rebuilding the index from a list of entities and reading it back
yields exactly the `(ID, Name, Price)` projections of the input entities,
one each, in input order. -/
theorem updateIndex_getIndex_projection (s : AgentStore) (agents : List Agent)
    (now : Time) :
    ∃ idx, getIndex (updateIndex s agents now .success).1 = .ok idx ∧
      idx.agents = agents.map (fun a => { id := a.id, name := a.name, price := a.price }) ∧
      idx.agents.length = agents.length := by
  refine ⟨_, rfl, rfl, ?_⟩
  exact List.length_map agents toSummary

/-- C6 — `UpdateStatus` derives the status by exactly the spec's rule
list, in its fixed order with the first match winning (`dead` on empty
price and description, else `default` on zero update count, else `latent`
on an "inactive"/"discontinued" description, else `active`), and changes
no other field. -/
theorem updateStatus_first_match_rules (a : Agent) :
    updateStatus a = { a with status := specStatus a } :=
  updateStatus_spec a

/-- C10 — the ID function hashes the single string `Name + "-" + Price`,
so it is not injective on the pair: `("a-b", "c")` and `("a", "b-c")` are
different pairs whose concatenations agree, and they receive the same ID. -/
theorem generateID_not_injective :
    (agentDashLeft.name, agentDashLeft.price) ≠ (agentDashRight.name, agentDashRight.price) ∧
    (generateID agentDashLeft).id = (generateID agentDashRight).id := by
  refine ⟨by decide, ?_⟩
  show generateIDString "a-b" "c" = generateIDString "a" "b-c"
  unfold generateIDString
  exact congrArg sha256hex8 (by decide)

/-- C1 — the claim fails on the code: on a fully successful one-ID sweep
the scheduler marks the ID fetched and appends the entity to the sweep
list, but `Store.save` is never called, so no individual record reaches
the store and the entity cannot be read back by ID afterwards.  (The
storage layer's `SaveAgent`/`SaveAgents` exist but no sweep variant calls
them; the per-entity read API the index points at therefore finds
nothing.) -/
theorem sweep_success_never_persists_record :
    (scrapeAgents fetchAllAlpha {} 5 .success 1 1).successCount = 1 ∧
    (scrapeAgents fetchAllAlpha {} 5 .success 1 1).agents.length = 1 ∧
    (scrapeAgents fetchAllAlpha {} 5 .success 1 1).store.fetchCache = [("1", 5)] ∧
    (scrapeAgents fetchAllAlpha {} 5 .success 1 1).store.agentFiles = [] ∧
    getAgent (scrapeAgents fetchAllAlpha {} 5 .success 1 1).store
        (((scrapeAgents fetchAllAlpha {} 5 .success 1 1).agents.getD 0 {}).id) =
      .error "failed to read agent file" := by
  decide

/-- C7 — name is the only mandatory field: when every name selector yields
only white space the whole extraction fails with the extraction error and
no entity is returned, whatever the other fields hold; and as soon as some
name selector yields non-empty trimmed text, extraction succeeds. -/
theorem parseAgentPage_name_mandatory (doc : Document) (id : Nat) (now : Time) :
    ((∀ sel ∈ nameSelectors, ∀ t ∈ doc.texts sel, trimSpace t = "") →
      parseAgentPage doc id now = .error ("no agent name found for ID " ++ toString id)) ∧
    ((∃ sel ∈ nameSelectors, ∃ t ∈ doc.texts sel, trimSpace t ≠ "") →
      ∃ a, parseAgentPage doc id now = .ok a) := by
  constructor
  · intro h
    apply parseAgentPage_err
    apply firstNonEmpty_empty
    intro t ht
    rw [List.mem_flatten] at ht
    obtain ⟨l, hl, htl⟩ := ht
    rw [List.mem_map] at hl
    obtain ⟨sel, hsel, rfl⟩ := hl
    exact h sel hsel t htl
  · rintro ⟨sel, hsel, t, ht, hne⟩
    refine ⟨_, parseAgentPage_ok doc id now (firstNonEmpty_ne _ ⟨t, ?_, hne⟩)⟩
    rw [List.mem_flatten]
    exact ⟨doc.texts sel, List.mem_map_of_mem doc.texts hsel, ht⟩

/-- C7 witness — on the concrete page whose name selectors all yield white
space while a price and a description are present, extraction fails with
the extraction error. -/
theorem parseAgentPage_name_mandatory_witness :
    (∀ sel ∈ nameSelectors, ∀ t ∈ docNoName.texts sel, trimSpace t = "") ∧
    extractField docNoName priceSelectors = "$12" ∧
    parseAgentPage docNoName 7 0 = .error ("no agent name found for ID " ++ toString 7) :=
  ⟨by decide, by decide, (parseAgentPage_name_mandatory docNoName 7 0).1 (by decide)⟩

/-- C9 counterexample — `SaveAgent` does not always leave the caller's
entity with `UpdateCount` one above its pre-call value: when a differing
record with the same ID already exists on disk, the count is overwritten
with the existing record's count plus one (here 6, not 0 + 1). -/
theorem saveAgent_not_always_increment :
    (saveAgent storeWithV5 agentAlphaNew 9).2.updateCount ≠ agentAlphaNew.updateCount + 1 ∧
    (saveAgent storeWithV5 agentAlphaNew 9).2.updateCount = 6 := by
  decide

/-- C9 (amended) — every call of `save` hands back a mutated entity:
`LastChecked` is the call time, the ID is filled from `(Name, Price)` when
it was empty, the status is recomputed from the content (with the
incremented count), and `UpdateCount` is the pre-call value plus one
except when a differing record with the same ID exists on disk, in which
case it is that record's count plus one. -/
theorem saveAgent_mutates_argument (s : AgentStore) (a : Agent) (now : Time) :
    (saveAgent s a now).2.lastChecked = now ∧
    (saveAgent s a now).2.id =
      (if a.id = "" then generateIDString a.name a.price else a.id) ∧
    (saveAgent s a now).2.status = specStatus { a with updateCount := a.updateCount + 1 } ∧
    ((saveAgent s a now).2.updateCount = a.updateCount + 1 ∨
      ∃ ex, lookupAssoc s.agentFiles (saveAgent s a now).2.id = some ex ∧
        (saveAgent s a now).2.updateCount = ex.updateCount + 1) := by
  simp only [saveAgent]
  cases hl : lookupAssoc s.agentFiles (savePrepared a now).id with
  | none =>
    exact ⟨savePrepared_lastChecked a now, savePrepared_id a now,
      savePrepared_status a now, Or.inl (savePrepared_updateCount a now)⟩
  | some ex =>
    dsimp only
    by_cases heq : ex = savePrepared a now
    · rw [if_pos heq]
      exact ⟨savePrepared_lastChecked a now, savePrepared_id a now,
        savePrepared_status a now, Or.inl (savePrepared_updateCount a now)⟩
    · rw [if_neg heq]
      exact ⟨savePrepared_lastChecked a now, savePrepared_id a now,
        savePrepared_status a now, Or.inr ⟨ex, hl, rfl⟩⟩

/-- C8 — one failing scan ID is never fatal to the sweep: over the range
`[1, 3]` with ID 2's fetch failing and IDs 1 and 3 extracting, the sweep
counts 2 successes and 1 failure and rebuilds the index with exactly one
summary per successfully processed ID. -/
theorem sweep_failure_not_fatal (fetchEnv : Nat → Except String Document)
    (s : AgentStore) (now : Time) (d1 d3 : Document) (msg : String)
    (hc : s.fetchCache = [])
    (h1 : fetchEnv 1 = .ok d1) (h2 : fetchEnv 2 = .error msg) (h3 : fetchEnv 3 = .ok d3)
    (hn1 : extractField d1 nameSelectors ≠ "") (hn3 : extractField d3 nameSelectors ≠ "") :
    (scrapeAgents fetchEnv s now .success 1 3).successCount = 2 ∧
    (scrapeAgents fetchEnv s now .success 1 3).errorCount = 1 ∧
    (scrapeAgents fetchEnv s now .success 1 3).agents.length = 2 ∧
    ∃ idx, getIndex (scrapeAgents fetchEnv s now .success 1 3).store = .ok idx ∧
      idx.agents = (scrapeAgents fetchEnv s now .success 1 3).agents.map toSummary ∧
      idx.agents.length = 2 := by
  have e1 : parseAgentPage d1 1 now = .ok (updateStatus (generateID (parsedAgent d1 now))) :=
    parseAgentPage_ok d1 1 now hn1
  have e3 : parseAgentPage d3 3 now = .ok (updateStatus (generateID (parsedAgent d3 now))) :=
    parseAgentPage_ok d3 3 now hn3
  have sf1 : shouldFetch s (toString (1 : Nat)) now = true :=
    shouldFetch_of_lookup_none s _ now (by rw [hc]; rfl)
  have sf2 : shouldFetch (markFetched s (toString (1 : Nat)) now) (toString (2 : Nat)) now = true := by
    refine shouldFetch_of_lookup_none _ _ now ?_
    show lookupAssoc ((toString (1 : Nat), now) :: s.fetchCache) (toString (2 : Nat)) = none
    rw [hc]
    simp only [lookupAssoc]
    rw [if_neg (by decide : ¬ (toString (1 : Nat) = toString (2 : Nat)))]
  have sf3 : shouldFetch (markFetched s (toString (1 : Nat)) now) (toString (3 : Nat)) now = true := by
    refine shouldFetch_of_lookup_none _ _ now ?_
    show lookupAssoc ((toString (1 : Nat), now) :: s.fetchCache) (toString (3 : Nat)) = none
    rw [hc]
    simp only [lookupAssoc]
    rw [if_neg (by decide : ¬ (toString (1 : Nat) = toString (3 : Nat)))]
  have L : sweepLoop fetchEnv now [1, 2, 3] s 0 0 [] =
      (markFetched (markFetched s (toString (1 : Nat)) now) (toString (3 : Nat)) now, 2, 1,
        [updateStatus (generateID (parsedAgent d1 now)),
         updateStatus (generateID (parsedAgent d3 now))]) := by
    rw [sweepLoop_stepOk fetchEnv now 1 [2, 3] s 0 0 [] d1 _ sf1 h1 e1]
    rw [sweepLoop_fetchErr fetchEnv now 2 [3] _ 1 0 _ msg sf2 h2]
    rw [sweepLoop_stepOk fetchEnv now 3 [] _ 1 1 _ d3 _ sf3 h3 e3]
    rfl
  have key : scrapeAgents fetchEnv s now .success 1 3 =
      { store := (updateIndex
          (markFetched (markFetched s (toString (1 : Nat)) now) (toString (3 : Nat)) now)
          [updateStatus (generateID (parsedAgent d1 now)),
           updateStatus (generateID (parsedAgent d3 now))] now .success).1
        successCount := 2
        errorCount := 1
        agents := [updateStatus (generateID (parsedAgent d1 now)),
                   updateStatus (generateID (parsedAgent d3 now))] } := by
    unfold scrapeAgents
    rw [show idRange 1 3 = [1, 2, 3] from rfl, L]
    rfl
  rw [key]
  refine ⟨rfl, rfl, rfl, ⟨_, rfl, rfl, rfl⟩⟩

/-- C8 witness — the concrete sweep over `[1, 3]` where ID 2 times out and
IDs 1 and 3 render pages with names `Alpha` and `Beta`. -/
theorem sweep_failure_not_fatal_witness :
    (scrapeAgents fetchTwoOfThree {} 5 .success 1 3).successCount = 2 ∧
    (scrapeAgents fetchTwoOfThree {} 5 .success 1 3).errorCount = 1 ∧
    (scrapeAgents fetchTwoOfThree {} 5 .success 1 3).agents.length = 2 ∧
    ∃ idx, getIndex (scrapeAgents fetchTwoOfThree {} 5 .success 1 3).store = .ok idx ∧
      idx.agents = (scrapeAgents fetchTwoOfThree {} 5 .success 1 3).agents.map toSummary ∧
      idx.agents.length = 2 :=
  sweep_failure_not_fatal fetchTwoOfThree {} 5 docAlpha docBeta
    "timeout while loading page" rfl rfl rfl rfl (by decide) (by decide)

end Anondd
